import Mathlib

/-!
Verification of the result-normalization logic of
src/scripts/ytmusic_search.py.

The script has two parts:

* normalize_results (lines 7-32): a pure transformation of a list of raw
  search records, each a loosely-typed mapping, into a list of fixed-shape
  normalized records.  Raw mappings are embedded here as structures whose
  fields are Option-typed, matching dict.get returning None on a missing
  key.  Python truthiness of a string value (None and "" are falsy) is
  modelled by strTruthy below.

* main (lines 35-46): the driver.  It is embedded as runMain, a function
  of the argument vector and of the external search capability, returning
  the printed JSON value, the exit code, and a record of the search call
  made (if any).  Printing is modelled at the JSON-value level via the
  JsonValue type.
-/

/-- One entry of the raw artists sequence: a mapping that may contain a
name (read at line 16 via artist.get in the comprehension). -/
structure ArtistEntry where
  name : Option String := none
  deriving Repr, DecidableEq

/-- One entry of the raw thumbnails sequence: a mapping that may contain a
url (read at line 23 via thumbnails[-1].get). -/
structure Thumbnail where
  url : Option String := none
  deriving Repr, DecidableEq

/-- A raw search-result record: a mapping that may contain each of the keys
the normalizer reads.  Each dict.get call on the Python side is an access
of the corresponding Option-typed field here. -/
structure RawItem where
  videoId : Option String := none
  title : Option String := none
  artists : Option (List ArtistEntry) := none
  artist : Option String := none
  author : Option String := none
  thumbnails : Option (List Thumbnail) := none
  deriving Repr, DecidableEq

/-- The fixed four-key output mapping built at lines 25-30: id, title and
channel are always strings, thumbnailUrl may be None. -/
structure NormalizedRecord where
  id : String
  title : String
  channel : String
  thumbnailUrl : Option String
  deriving Repr, DecidableEq

/-- Python truthiness of an optional string value: None and the empty
string are falsy, every other string is truthy. -/
def strTruthy : Option String → Bool
  | some s => !s.isEmpty
  | none => false

/-- Python `a or b` on two optional string values: the first operand if it
is truthy, otherwise the second (line 10). -/
def pyOrStrOpt (a b : Option String) : Option String :=
  if strTruthy a then a else b

/-- Python `a or d` where a is an optional string and d is a string
default: a's value if truthy, otherwise d (lines 13 and 19). -/
def pyOrS (a : Option String) (d : String) : String :=
  match a with
  | some s => if s.isEmpty then d else s
  | none => d

/-- Python `x if x is truthy else None` for an optional string: used to
model the comprehension filter `if artist.get("name")` at line 16, which
keeps exactly the truthy name values. -/
def keepTruthy : Option String → Option String
  | some s => if s.isEmpty then none else some s
  | none => none

/-- Title extraction, line 13: `item.get("title") or "Unknown title"`. -/
def extractTitle (item : RawItem) : String :=
  pyOrS item.title "Unknown title"

/-- Channel resolution, lines 14-19:
`artists = item.get("artists") or []`;
`channel = ", ".join([artist.get("name") for artist in artists if artist.get("name")])`;
`if not channel: channel = item.get("artist") or item.get("author") or "YouTube Music"`. -/
def extractChannel (item : RawItem) : String :=
  let artists := item.artists.getD []
  let channel := String.intercalate ", "
    (artists.filterMap (fun a => keepTruthy a.name))
  if channel.isEmpty then
    pyOrS item.artist (pyOrS item.author "YouTube Music")
  else channel

/-- Thumbnail resolution, lines 20-23:
`thumbnails = item.get("thumbnails") or []`; `thumbnail_url = None`;
`if thumbnails: thumbnail_url = thumbnails[-1].get("url")`. -/
def extractThumbnail (item : RawItem) : Option String :=
  let thumbnails := item.thumbnails.getD []
  match thumbnails.getLast? with
  | some t => t.url
  | none => none

/-- The body of the loop of normalize_results, lines 9-31, for one raw
record: none when the record is skipped by the `continue` at line 12,
otherwise the appended four-key record. -/
def normalizeItem (item : RawItem) : Option NormalizedRecord :=
  let video_id := pyOrStrOpt item.videoId item.videoId
  if strTruthy video_id then
    some { id := video_id.getD ""
           title := extractTitle item
           channel := extractChannel item
           thumbnailUrl := extractThumbnail item }
  else none

/-- normalize_results, lines 7-32: the loop appends one record per raw
item not skipped at line 12, in input order. -/
def normalize_results (items : List RawItem) : List NormalizedRecord :=
  items.filterMap normalizeItem

/-- A JSON value, the shape of what json.dumps serializes; stdout of the
driver is modelled at this level. -/
inductive JsonValue where
  | null : JsonValue
  | str : String → JsonValue
  | num : Int → JsonValue
  | arr : List JsonValue → JsonValue
  | obj : List (String × JsonValue) → JsonValue
  deriving Repr

/-- The JSON object built for one normalized record by json.dumps at
line 45, from the dict built at lines 25-30. -/
def NormalizedRecord.toJson (r : NormalizedRecord) : JsonValue :=
  JsonValue.obj
    [("id", JsonValue.str r.id),
     ("title", JsonValue.str r.title),
     ("channel", JsonValue.str r.channel),
     ("thumbnailUrl",
       match r.thumbnailUrl with
       | some u => JsonValue.str u
       | none => JsonValue.null)]

/-- Observable outcome of one run of main: the JSON value printed to
standard output, the process exit code, and the arguments of the call made
to the external search capability (headers path, query, filter, limit), or
none when no search was performed. -/
structure MainOutcome where
  stdout : JsonValue
  exitCode : Nat
  searchCall : Option (String × String × String × Nat)

/-- main, lines 35-46, as a function of sys.argv and of the external
search capability (argument order: headers path as handed to YTMusic at
line 43, then query, filter and limit as handed to search at line 44).
With fewer than three argv entries (program name plus two positional
arguments) it prints the usage error object and exits with status 1;
otherwise it searches with filter "songs" and limit 8, normalizes, prints
the results object and falls off the end (exit status 0). -/
def runMain (argv : List String)
    (search : String → String → String → Nat → List RawItem) : MainOutcome :=
  match argv with
  | _prog :: query :: headers_path :: _ =>
      let items := search headers_path query "songs" 8
      { stdout := JsonValue.obj
          [("results",
            JsonValue.arr ((normalize_results items).map NormalizedRecord.toJson))]
        exitCode := 0
        searchCall := some (headers_path, query, "songs", 8) }
  | _ =>
      { stdout := JsonValue.obj
          [("error",
            JsonValue.str "Usage: ytmusic_search.py <query> <headers_path>")]
        exitCode := 1
        searchCall := none }

/-! ## Helper lemmas -/

theorem pyOrStrOpt_self (x : Option String) : pyOrStrOpt x x = x := by
  unfold pyOrStrOpt
  split <;> rfl

theorem isEmpty_false_iff (s : String) : s.isEmpty = false ↔ s ≠ "" := by
  constructor
  · intro h hc
    rw [hc] at h
    exact absurd h (by decide)
  · intro h
    cases he : s.isEmpty with
    | false => rfl
    | true => exact absurd ((String.isEmpty_iff s).mp he) h

theorem strTruthy_some_iff (x : Option String) :
    strTruthy x = true ↔ ∃ s, x = some s ∧ s.isEmpty = false := by
  cases x with
  | none => simp [strTruthy]
  | some s =>
    cases he : s.isEmpty with
    | false => simp [strTruthy, he]
    | true => simp [strTruthy, he]

theorem keepTruthy_of_falsy (x : Option String) (h : strTruthy x = false) :
    keepTruthy x = none := by
  cases x with
  | none => rfl
  | some s =>
    simp only [strTruthy, Bool.not_eq_false'] at h
    simp [keepTruthy, h]

theorem normalizeItem_of_falsy (i : RawItem) (h : strTruthy i.videoId = false) :
    normalizeItem i = none := by
  simp [normalizeItem, pyOrStrOpt_self, h]

theorem normalizeItem_of_truthy (i : RawItem) (h : strTruthy i.videoId = true) :
    normalizeItem i = some
      { id := i.videoId.getD ""
        title := extractTitle i
        channel := extractChannel i
        thumbnailUrl := extractThumbnail i } := by
  simp [normalizeItem, pyOrStrOpt_self, h]

theorem normalizeItem_some_spec (i : RawItem) (r : NormalizedRecord)
    (h : normalizeItem i = some r) :
    strTruthy i.videoId = true ∧
    r = { id := i.videoId.getD ""
          title := extractTitle i
          channel := extractChannel i
          thumbnailUrl := extractThumbnail i } := by
  cases hv : strTruthy i.videoId with
  | false => rw [normalizeItem_of_falsy i hv] at h; exact absurd h (by simp)
  | true =>
    rw [normalizeItem_of_truthy i hv] at h
    exact ⟨rfl, (Option.some_inj.mp h).symm⟩

theorem normalize_results_map_id (items : List RawItem) :
    (normalize_results items).map (fun r => r.id)
      = items.filterMap (fun i => keepTruthy i.videoId) := by
  induction items with
  | nil => rfl
  | cons i t ih =>
    cases hv : strTruthy i.videoId with
    | false =>
      rw [normalize_results, List.filterMap_cons, normalizeItem_of_falsy i hv,
        List.filterMap_cons, keepTruthy_of_falsy i.videoId hv]
      exact ih
    | true =>
      obtain ⟨s, hs, he⟩ := (strTruthy_some_iff i.videoId).mp hv
      rw [normalize_results, List.filterMap_cons, normalizeItem_of_truthy i hv,
        List.filterMap_cons, hs]
      simp only [keepTruthy, he, Bool.false_eq_true, if_false, List.map_cons,
        Option.getD_some]
      exact congrArg (List.cons s) ih

theorem normalize_results_length_filter (items : List RawItem) :
    (normalize_results items).length
      = (items.filter (fun i => strTruthy i.videoId)).length := by
  induction items with
  | nil => rfl
  | cons i t ih =>
    cases hv : strTruthy i.videoId with
    | false =>
      rw [normalize_results, List.filterMap_cons, normalizeItem_of_falsy i hv,
        List.filter_cons, hv]
      exact ih
    | true =>
      rw [normalize_results, List.filterMap_cons, normalizeItem_of_truthy i hv,
        List.filter_cons, hv]
      simp only [List.length_cons, if_true]
      exact congrArg Nat.succ ih

theorem length_filter_add_length_filter_not {α : Type} (l : List α)
    (p : α → Bool) :
    (l.filter p).length + (l.filter (fun a => !p a)).length = l.length := by
  induction l with
  | nil => rfl
  | cons a t ih =>
    cases hp : p a <;> simp [List.filter_cons, hp] <;> omega

theorem filter_map_names (l : List ArtistEntry) :
    (l.filter (fun a => a.name.getD "" != "")).map (fun a => a.name.getD "")
      = l.filterMap (fun a => keepTruthy a.name) := by
  induction l with
  | nil => rfl
  | cons a t ih =>
    cases hn : a.name with
    | none => simp [List.filter_cons, List.filterMap_cons, hn, keepTruthy, ih]
    | some s =>
      by_cases hs : s = ""
      · subst hs
        simp [List.filter_cons, List.filterMap_cons, hn, keepTruthy,
          String.isEmpty_iff, ih]
      · simp [List.filter_cons, List.filterMap_cons, hn, keepTruthy,
          (isEmpty_false_iff s).mpr hs, hs, ih]

theorem pyOrS_eq_ite (a : Option String) (d : String) :
    pyOrS a d = if a.getD "" != "" then a.getD "" else d := by
  cases a with
  | none => simp [pyOrS]
  | some s =>
    by_cases hs : s = ""
    · subst hs
      simp [pyOrS, String.isEmpty_iff]
    · simp [pyOrS, (isEmpty_false_iff s).mpr hs, hs]

theorem pyOrS_ne_empty (a : Option String) (d : String) (hd : d ≠ "") :
    pyOrS a d ≠ "" := by
  rw [pyOrS_eq_ite]
  by_cases h : (a.getD "" != "") = true
  · rw [if_pos h]
    exact bne_iff_ne.mp h
  · rw [if_neg h]
    exact hd

/-! ## Claim theorems -/

/-- Claim C2: for every record emitted by normalize_results, the channel
field is the ordered fallback: the comma-space join of the name of every
artists entry with a non-empty name if that join is non-empty; else the
artist field if present and non-empty; else the author field if present
and non-empty; else the literal "YouTube Music".  The right-hand side
below transcribes the fallback as the spec words it. -/
theorem normalize_channel_ordered_fallback (item : RawItem)
    (r : NormalizedRecord) (h : normalizeItem item = some r) :
    r.channel =
      (let joined := String.intercalate ", "
          (((item.artists.getD []).filter
              (fun a => a.name.getD "" != "")).map (fun a => a.name.getD ""))
       if joined != "" then joined
       else if item.artist.getD "" != "" then item.artist.getD ""
       else if item.author.getD "" != "" then item.author.getD ""
       else "YouTube Music") := by
  obtain ⟨-, hr⟩ := normalizeItem_some_spec item r h
  subst hr
  show extractChannel item = _
  rw [extractChannel]
  simp only [filter_map_names]
  by_cases hc : String.intercalate ", "
      ((item.artists.getD []).filterMap (fun a => keepTruthy a.name)) = ""
  · rw [if_pos ((String.isEmpty_iff _).mpr hc)]
    rw [if_neg (by simp [hc])]
    rw [pyOrS_eq_ite, pyOrS_eq_ite]
  · rw [if_neg (by simp [String.isEmpty_iff, hc])]
    rw [if_pos (by simp [bne_iff_ne, hc])]

/-- Claim C3: for every emitted record, a non-empty thumbnails sequence
makes thumbnailUrl equal to the url field of its last element, and an
absent or empty thumbnails sequence makes thumbnailUrl null. -/
theorem normalize_thumbnail_last (item : RawItem) (r : NormalizedRecord)
    (h : normalizeItem item = some r) :
    (∀ ts t, item.thumbnails = some ts → ts.getLast? = some t →
        r.thumbnailUrl = t.url) ∧
    ((item.thumbnails = none ∨ item.thumbnails = some []) →
        r.thumbnailUrl = none) := by
  obtain ⟨-, hr⟩ := normalizeItem_some_spec item r h
  subst hr
  constructor
  · intro ts t hts hlast
    show extractThumbnail item = t.url
    rw [extractThumbnail, hts]
    simp [hlast]
  · intro habs
    show extractThumbnail item = none
    cases habs with
    | inl hn => rw [extractThumbnail, hn]; rfl
    | inr he => rw [extractThumbnail, he]; rfl

/-- Claim C4: for every emitted record, an absent or empty raw title
yields the literal "Unknown title", and a non-empty raw title is carried
over unchanged. -/
theorem normalize_title_fallback (item : RawItem) (r : NormalizedRecord)
    (h : normalizeItem item = some r) :
    ((item.title = none ∨ item.title = some "") →
        r.title = "Unknown title") ∧
    (∀ s, item.title = some s → s ≠ "" → r.title = s) := by
  obtain ⟨-, hr⟩ := normalizeItem_some_spec item r h
  subst hr
  constructor
  · intro habs
    show extractTitle item = "Unknown title"
    cases habs with
    | inl hn => rw [extractTitle, hn]; rfl
    | inr he => rw [extractTitle, he]; simp [pyOrS, String.isEmpty_iff]
  · intro s hs hne
    show extractTitle item = s
    rw [extractTitle, hs]
    simp [pyOrS, (isEmpty_false_iff s).mpr hne]

/-- Claim C5: invoked with fewer than two positional arguments (argv
shorter than three entries), main prints exactly the usage-error JSON
object, exits with status 1, and performs no search. -/
theorem main_usage_error (argv : List String)
    (search : String → String → String → Nat → List RawItem)
    (h : argv.length < 3) :
    runMain argv search =
      { stdout := JsonValue.obj
          [("error",
            JsonValue.str "Usage: ytmusic_search.py <query> <headers_path>")]
        exitCode := 1
        searchCall := none } := by
  match argv with
  | [] => rfl
  | [_] => rfl
  | [_, _] => rfl
  | _ :: _ :: _ :: _ => simp [List.length_cons] at h; omega

/-- Claim C6: normalize_results is deterministic: two calls on identical
input lists yield identical output lists (the embedding is a pure
function, so this is congruence; the absence of I/O and of mutation of
the input is inherent to the functional embedding). -/
theorem normalize_results_deterministic (items1 items2 : List RawItem)
    (h : items1 = items2) :
    normalize_results items1 = normalize_results items2 := by
  rw [h]

/-- The loop body of normalize_results with the duplicated fallback of
line 10 replaced by the single read item.get("videoId"); all other
processing is unchanged. -/
def normalizeItemSingleRead (item : RawItem) : Option NormalizedRecord :=
  let video_id := item.videoId
  if strTruthy video_id then
    some { id := video_id.getD ""
           title := extractTitle item
           channel := extractChannel item
           thumbnailUrl := extractThumbnail item }
  else none

/-- normalize_results with the single-read loop body. -/
def normalize_results_single_read (items : List RawItem) :
    List NormalizedRecord :=
  items.filterMap normalizeItemSingleRead

/-- Claim C7: the duplicated fallback item.get("videoId") or
item.get("videoId") is equivalent to a single read of videoId: replacing
it changes nothing about the output of normalize_results, on any input. -/
theorem duplicate_videoId_read_redundant (items : List RawItem) :
    normalize_results_single_read items = normalize_results items := by
  unfold normalize_results normalize_results_single_read
  apply List.filterMap_congr
  intro i _
  unfold normalizeItem normalizeItemSingleRead
  rw [pyOrStrOpt_self]

/-- Claim C8: on a successful invocation (at least two positional
arguments), main calls the external search capability with the
user-supplied query, the filter "songs" and a limit of exactly 8, prints
the results object holding the normalized records, and exits with
status 0. -/
theorem main_success_calls_search (prog query headers_path : String)
    (rest : List String)
    (search : String → String → String → Nat → List RawItem) :
    runMain (prog :: query :: headers_path :: rest) search =
      { stdout := JsonValue.obj
          [("results", JsonValue.arr
            ((normalize_results (search headers_path query "songs" 8)).map
              NormalizedRecord.toJson))]
        exitCode := 0
        searchCall := some (headers_path, query, "songs", 8) } := rfl

/-- Claim C9: a raw record with a truthy videoId whose thumbnails
sequence is non-empty but whose last element lacks a url is still
emitted, and its thumbnailUrl is null: thumbnailUrl can be null even
when thumbnails exist. -/
theorem emitted_record_null_thumbnail (item : RawItem)
    (ts : List Thumbnail) (t : Thumbnail)
    (hv : strTruthy item.videoId = true)
    (hts : item.thumbnails = some ts) (hlast : ts.getLast? = some t)
    (hurl : t.url = none) :
    ∃ r, normalizeItem item = some r ∧ r.thumbnailUrl = none := by
  refine ⟨_, normalizeItem_of_truthy item hv, ?_⟩
  show extractThumbnail item = none
  rw [extractThumbnail, hts]
  simp [hlast, hurl]

/-- Claim C10: every record emitted by normalize_results consists of
exactly the four keys id, title, channel and thumbnailUrl (the shape of
NormalizedRecord), and its id, title and channel values are non-empty
strings; only thumbnailUrl may be null. -/
theorem normalized_fields_nonempty (items : List RawItem)
    (r : NormalizedRecord) (h : r ∈ normalize_results items) :
    r.id ≠ "" ∧ r.title ≠ "" ∧ r.channel ≠ "" := by
  obtain ⟨i, -, hi⟩ := List.mem_filterMap.mp h
  obtain ⟨hv, hr⟩ := normalizeItem_some_spec i r hi
  obtain ⟨s, hs, he⟩ := (strTruthy_some_iff i.videoId).mp hv
  subst hr
  refine ⟨?_, ?_, ?_⟩
  · show i.videoId.getD "" ≠ ""
    rw [hs]
    exact (isEmpty_false_iff s).mp he
  · show extractTitle i ≠ ""
    rw [extractTitle]
    exact pyOrS_ne_empty i.title "Unknown title" (by decide)
  · show extractChannel i ≠ ""
    rw [extractChannel]
    by_cases hc : (String.intercalate ", "
        ((i.artists.getD []).filterMap (fun a => keepTruthy a.name))).isEmpty
    · rw [if_pos hc]
      exact pyOrS_ne_empty i.artist _
        (pyOrS_ne_empty i.author "YouTube Music" (by decide))
    · rw [if_neg hc]
      exact (isEmpty_false_iff _).mp (Bool.eq_false_iff.mpr hc)

/-! ## Witnesses: each hypothesis-bearing claim theorem applied at a
concrete input -/

/-- Witness for C2 at a record with two named artists: the channel is the
comma-space join of the artist names. -/
theorem normalize_channel_ordered_fallback_witness :
    normalizeItem
        { videoId := some "a1"
          artists := some [{ name := some "Artist X" },
                           { name := some "Artist Y" }] }
      = some { id := "a1", title := "Unknown title",
               channel := "Artist X, Artist Y", thumbnailUrl := none } ∧
    ({ id := "a1", title := "Unknown title", channel := "Artist X, Artist Y",
       thumbnailUrl := none } : NormalizedRecord).channel
      = "Artist X, Artist Y" :=
  ⟨by decide,
   normalize_channel_ordered_fallback
     { videoId := some "a1"
       artists := some [{ name := some "Artist X" },
                        { name := some "Artist Y" }] }
     { id := "a1", title := "Unknown title", channel := "Artist X, Artist Y",
       thumbnailUrl := none }
     (by decide)⟩

/-- Witness for C3 at a record with two thumbnails: the url of the last
one wins. -/
theorem normalize_thumbnail_last_witness :
    ({ id := "v1", title := "Unknown title", channel := "YouTube Music",
       thumbnailUrl := some "high.jpg" } : NormalizedRecord).thumbnailUrl
      = ({ url := some "high.jpg" } : Thumbnail).url :=
  (normalize_thumbnail_last
      { videoId := some "v1"
        thumbnails := some [{ url := some "low.jpg" },
                            { url := some "high.jpg" }] }
      { id := "v1", title := "Unknown title", channel := "YouTube Music",
        thumbnailUrl := some "high.jpg" }
      (by decide)).1
    [{ url := some "low.jpg" }, { url := some "high.jpg" }]
    { url := some "high.jpg" } rfl (by decide)

/-- Witness for C4 at a record with no title key: the literal fallback is
used. -/
theorem normalize_title_fallback_witness :
    ({ id := "t1", title := "Unknown title", channel := "YouTube Music",
       thumbnailUrl := none } : NormalizedRecord).title = "Unknown title" :=
  (normalize_title_fallback { videoId := some "t1" }
      { id := "t1", title := "Unknown title", channel := "YouTube Music",
        thumbnailUrl := none }
      (by decide)).1 (Or.inl rfl)

/-- Witness for C5 at an argv with the program name only. -/
theorem main_usage_error_witness :
    runMain ["ytmusic_search.py"] (fun _ _ _ _ => []) =
      { stdout := JsonValue.obj
          [("error",
            JsonValue.str "Usage: ytmusic_search.py <query> <headers_path>")]
        exitCode := 1
        searchCall := none } :=
  main_usage_error ["ytmusic_search.py"] (fun _ _ _ _ => []) (by decide)

/-- Witness for C6 at a concrete one-record list. -/
theorem normalize_results_deterministic_witness :
    normalize_results [{ videoId := some "w6" }]
      = normalize_results [{ videoId := some "w6" }] :=
  normalize_results_deterministic [{ videoId := some "w6" }]
    [{ videoId := some "w6" }] rfl

/-- Witness for C9 at a record whose only thumbnail lacks a url. -/
theorem emitted_record_null_thumbnail_witness :
    ∃ r, normalizeItem
        { videoId := some "v9", thumbnails := some [{ url := none }] }
      = some r ∧ r.thumbnailUrl = none :=
  emitted_record_null_thumbnail
    { videoId := some "v9", thumbnails := some [{ url := none }] }
    [{ url := none }] { url := none } (by decide) rfl (by decide) rfl

/-- Witness for C10 at a minimal emitted record: all three string fields
are non-empty. -/
theorem normalized_fields_nonempty_witness :
    ({ id := "z1", title := "Unknown title", channel := "YouTube Music",
       thumbnailUrl := none } : NormalizedRecord).id ≠ "" ∧
    ({ id := "z1", title := "Unknown title", channel := "YouTube Music",
       thumbnailUrl := none } : NormalizedRecord).title ≠ "" ∧
    ({ id := "z1", title := "Unknown title", channel := "YouTube Music",
       thumbnailUrl := none } : NormalizedRecord).channel ≠ "" :=
  normalized_fields_nonempty [{ videoId := some "z1" }]
    { id := "z1", title := "Unknown title", channel := "YouTube Music",
      thumbnailUrl := none }
    (by decide)

/-- Claim C1: normalize_results emits exactly one record per input record
with a present, non-empty videoId, carrying that exact videoId as its id
and preserving relative order (captured by the equality of the whole id
list with the order-preserving filtration of the input videoIds); records
with an absent or empty videoId are dropped, so the output length equals
the input length minus the number of dropped no-identifier records. -/
theorem normalize_results_one_record_per_videoId (items : List RawItem) :
    (normalize_results items).map (fun r => r.id)
        = items.filterMap (fun i =>
            match i.videoId with
            | some s => if s = "" then none else some s
            | none => none)
      ∧ (normalize_results items).length
        = items.length
            - (items.filter (fun i => !strTruthy i.videoId)).length := by
  constructor
  · rw [normalize_results_map_id]
    apply List.filterMap_congr
    intro i _
    cases hx : i.videoId with
    | none => rfl
    | some s =>
      by_cases hs : s = ""
      · subst hs
        simp [keepTruthy, String.isEmpty_iff]
      · simp [keepTruthy, (isEmpty_false_iff s).mpr hs, hs]
  · rw [normalize_results_length_filter]
    have h := length_filter_add_length_filter_not items
      (fun i => strTruthy i.videoId)
    omega
